import Mathlib

/-!
Shallow embedding of `examples/aflpp_driver/aflpp_driver.c` (AFL++ driver).

The driver's observable behaviour is modelled as traces of events.  External
collaborators (the OS, the forkserver's `__afl_persistent_loop` primitive,
the filesystem, `read(0, ...)`) are oracles passed as function parameters.
Machine integers are modelled with `Int`; pointers with `Int` where `0` is
NULL and `-1` is `MAP_FAILED`.
-/

namespace AflppDriver

/-- `INT_MAX` from limits.h (32-bit int, as used for `int N`). -/
def INT_MAX : Int := 2147483647

/-- `MAX_DUMMY_SIZE` from aflpp_driver.c line 72. -/
def MAX_DUMMY_SIZE : Nat := 256000

/-- C `isspace` on the default locale, as consulted by `atoi`. -/
def isSpaceChar (c : Char) : Bool :=
  c = ' ' || c = '\t' || c = '\n' || c = '\r' || c.toNat = 11 || c.toNat = 12

/-- Decimal-digit test, as consulted by `atoi`. -/
def isDigitChar (c : Char) : Bool :=
  48 ≤ c.toNat && c.toNat ≤ 57

/-- Numeric value of a decimal digit character. -/
def digitToInt (c : Char) : Int := (c.toNat : Int) - 48

/-- The digit-accumulation loop of C `atoi`: consume leading decimal digits,
stopping at the first non-digit. -/
def atoiDigits : List Char → Int → Int
  | [], acc => acc
  | c :: cs, acc =>
      if isDigitChar c then atoiDigits cs (acc * 10 + digitToInt c) else acc

/-- C `atoi` (no overflow modelled: the driver only compares the result with
small bounds): skip leading whitespace, optional sign, then leading digits;
`0` when no digits are present. -/
def atoi (s : List Char) : Int :=
  match s.dropWhile isSpaceChar with
  | '-' :: rest => - atoiDigits rest 0
  | '+' :: rest => atoiDigits rest 0
  | t => atoiDigits t 0

/-- `argv[i][0]` of a C string: first character, NUL for the empty string. -/
def headChar (s : List Char) : Char := s.headD (Char.ofNat 0)

/-- Which call site invoked `LLVMFuzzerTestOneInput`: the single warm-up call
with the constant `dummy_input` buffer, the persistent-loop stream read, or a
batch-mode file. -/
inductive InvSrc
  | warmup
  | stream
  | batch
deriving DecidableEq

/-- Observable events of the driver relevant to the map/handshake/loop
lifecycle. `invoke src len` is a call `LLVMFuzzerTestOneInput(buf, len)`;
`loopQuery b` is one consultation of `__afl_persistent_loop(b)`. -/
inductive Event
  | munmapArea
  | nullAreaPtr
  | manualInit
  | warnDeprecated
  | invoke (src : InvSrc) (len : Int)
  | loopQuery (budget : Int)
deriving DecidableEq

/-- The `while (__afl_persistent_loop(N))` loop of `main` (lines 329-340):
oracle `dec i` is the boolean returned by the i-th consultation of
`__afl_persistent_loop(N)`, oracle `rd i` the result of the i-th
`read(0, buf, sizeof(buf))`.  The loop body invokes the target only when the
read returned a positive count.  `fuel` bounds the unrolling (the C loop may
run unboundedly). -/
def persistentLoopRun (N : Int) (dec : Nat → Bool) (rd : Nat → Int) :
    Nat → Nat → List Event
  | 0, _ => []
  | fuel + 1, i =>
      if dec i then
        Event.loopQuery N ::
          ((if rd i > 0 then [Event.invoke InvSrc.stream (rd i)] else []) ++
            persistentLoopRun N dec rd fuel (i + 1))
      else [Event.loopQuery N]

/-- Result of `read(fd, buf, MAX_FILE)` on a successfully opened file of size
`sz`: the number of bytes read, capped at `MAX_FILE`. -/
def readFileLen (maxFile : Int) (sz : Int) : Int := min sz maxFile

/-- `ExecuteFilesOnyByOne` (lines 226-247): iterate over the path arguments;
`fs p = none` models `open` failing (the path is skipped with `continue`),
`fs p = some sz` a successful open of a file of `sz` bytes.  The target is
invoked only when more than zero bytes were read; the function always
returns 0. -/
def ExecuteFilesOnyByOne (maxFile : Int) (fs : List Char → Option Int) :
    List (List Char) → List Event × Int
  | [] => ([], 0)
  | p :: rest =>
      let r := ExecuteFilesOnyByOne maxFile fs rest
      match fs p with
      | none => r
      | some sz =>
          if 0 < readFileLen maxFile sz then
            (Event.invoke InvSrc.batch (readFileLen maxFile sz) :: r.1, r.2)
          else r

/-- How `main` leaves the process: normal return with an exit code, or the
`assert(N > 0)` on line 316 firing. -/
inductive MainOutcome
  | ret (code : Int)
  | assertFail
deriving DecidableEq

/-- The mode resolved by the argument-parsing if-chain of `main`
(lines 301-314): `persist w N` enters the persistent path with budget `N`
(`w` true when the deprecated-call-style warning was printed), `batchMode`
takes the `argc > 1` branch into `ExecuteFilesOnyByOne`. -/
inductive Mode
  | persist (w : Bool) (N : Int)
  | batchMode
deriving DecidableEq

/-- The argument-parsing if-chain of `main` (lines 301-314):
`N = INT_MAX;
 if (argc == 2 && argv[1][0] == '-') N = atoi(argv[1] + 1);
 else if (argc == 2 && (N = atoi(argv[1])) > 0) warn;
 else if (argc > 1) batch;`. -/
def decideMode (argv : List (List Char)) : Mode :=
  match argv with
  | [_, a] =>
      if headChar a = '-' then Mode.persist false (atoi (a.drop 1))
      else if 0 < atoi a then Mode.persist true (atoi a)
      else Mode.batchMode
  | _ :: _ :: _ => Mode.batchMode
  | _ => Mode.persist false INT_MAX

/-- `main` (lines 267-344), from argument parsing onwards, as an event trace
plus outcome.  In the batch branch (lines 306-314) the placeholder map is
unmapped and nulled, `__afl_manual_init()` is called and
`ExecuteFilesOnyByOne` runs.  In the persistent branch, after
`assert(N > 0)`, the same unmap/null/init sequence runs unless
`AFL_DISABLE_LLVM_INSTRUMENTATION` is set (`disableLLVM`), then the single
warm-up call `LLVMFuzzerTestOneInput(dummy_input, 1)` (line 327), then the
persistent loop. -/
def aflMain (disableLLVM : Bool) (maxFile : Int) (fs : List Char → Option Int)
    (dec : Nat → Bool) (rd : Nat → Int) (fuel : Nat)
    (argv : List (List Char)) : List Event × MainOutcome :=
  match decideMode argv with
  | Mode.batchMode =>
      let b := ExecuteFilesOnyByOne maxFile fs (argv.drop 1)
      ([Event.munmapArea, Event.nullAreaPtr, Event.manualInit] ++ b.1,
        MainOutcome.ret b.2)
  | Mode.persist w N =>
      let warnTr := if w then [Event.warnDeprecated] else []
      if 0 < N then
        let instr := if disableLLVM then ([] : List Event)
          else [Event.munmapArea, Event.nullAreaPtr, Event.manualInit]
        (warnTr ++ instr ++
            Event.invoke InvSrc.warmup 1 :: persistentLoopRun N dec rd fuel 0,
          MainOutcome.ret 0)
      else (warnTr, MainOutcome.assertFail)

/-! ## Stream redirection (`maybe_close_fd_mask`, `dup_and_close_stderr`) -/

/-- Events of the fd-redirection subsystem. `dupStderr` is the
`dup(fileno(output_file))` call; `setSanReportFd` the call to
`__sanitizer_set_report_fd`; `discardOutput fd` is `discard_output(fd)`,
i.e. `dup2`-ing `/dev/null` over `fd`. -/
inductive IOEvent
  | dupStderr
  | setSanReportFd
  | discardOutput (fd : Nat)
deriving DecidableEq

/-- POSIX stdout descriptor number. -/
def STDOUT_FILENO : Nat := 1

/-- POSIX stderr descriptor number. -/
def STDERR_FILENO : Nat := 2

/-- `dup_and_close_stderr` (lines 192-203), success path of the `dup` and
`fdopen` calls: duplicate the current `output_file` descriptor, then — only
when the weak symbol `__sanitizer_set_report_fd` is linked (`sanLinked`) —
point the sanitizer at the duplicate and discard the original descriptor.
When the symbol is absent the function returns early after the `dup`. -/
def dup_and_close_stderr (sanLinked : Bool) (outputFileno : Nat) :
    List IOEvent :=
  IOEvent.dupStderr ::
    (if sanLinked then
      [IOEvent.setSanReportFd, IOEvent.discardOutput outputFileno]
    else [])

/-- `close_stdout` (lines 184-188). -/
def close_stdout : List IOEvent := [IOEvent.discardOutput STDOUT_FILENO]

/-- Bit 1 of a C int under two's complement: `m & 2 != 0`.  With Lean's
Euclidean `/` and `%` on `Int`, `(m / 2) % 2` is exactly the second binary
digit of the two's-complement representation, for negative `m` too. -/
def bit1 (m : Int) : Bool := (m / 2) % 2 = 1

/-- Bit 0 of a C int under two's complement: `m & 1 != 0`. -/
def bit0 (m : Int) : Bool := m % 2 = 1

/-- `maybe_close_fd_mask` (lines 206-214): `fdMaskStr` is
`getenv("AFL_DRIVER_CLOSE_FD_MASK")`; when present, `atoi` it and act on
bits 1 (stderr) and 0 (stdout), in that order. -/
def maybe_close_fd_mask (fdMaskStr : Option (List Char)) (sanLinked : Bool)
    (outputFileno : Nat) : List IOEvent :=
  match fdMaskStr with
  | none => []
  | some s =>
      let m := atoi s
      (if bit1 m then dup_and_close_stderr sanLinked outputFileno else []) ++
        (if bit0 m then close_stdout else [])

/-! ## Constructors: `__decide_deferred_forkserver` and `__afl_protect` -/

/-- The process environment, as a map from variable names to values. -/
def EnvMap : Type := String → Option String

/-- `setenv(k, v, 1)` on the environment. -/
def setenvF (e : EnvMap) (k v : String) : EnvMap :=
  fun x => if x = k then some v else e x

/-- `unsetenv(k)` on the environment (success case). -/
def unsetenvF (e : EnvMap) (k : String) : EnvMap :=
  fun x => if x = k then none else e x

/-- `__decide_deferred_forkserver` (constructor priority 0, lines 135-148):
if `AFL_DRIVER_DONT_DEFER` is set, `unsetenv("__AFL_DEFER_FORKSRV")`,
aborting (`none`) when the unsetenv call fails (`unsetFails` oracle). -/
def __decide_deferred_forkserver (unsetFails : Bool) (e : EnvMap) :
    Option EnvMap :=
  match e "AFL_DRIVER_DONT_DEFER" with
  | some _ =>
      if unsetFails then none
      else some (unsetenvF e "__AFL_DEFER_FORKSRV")
  | none => some e

/-- The three `mmap` strategies tried by `__afl_protect`, in source order:
fixed address `0x10000` with `MAP_FIXED_NOREPLACE`, the same fixed address
without it, and a NULL address hint. -/
inductive MmapStrategy
  | fixedNoReplace
  | fixedShared
  | nullHint
deriving DecidableEq

/-- The `MAP_FAILED` sentinel returned by a failed `mmap`. -/
def MAP_FAILED : Int := -1

/-- `__afl_protect`'s mapping cascade (lines 252-262): try the strategies in
order, keeping the first result that is not `MAP_FAILED`; `res` is the OS
oracle giving each strategy's return value.  Returns the final value of
`__afl_area_ptr` and the list of strategies actually attempted. -/
def __afl_protect (res : MmapStrategy → Int) : Int × List MmapStrategy :=
  let a1 := res MmapStrategy.fixedNoReplace
  if a1 ≠ MAP_FAILED then (a1, [MmapStrategy.fixedNoReplace])
  else
    let a2 := res MmapStrategy.fixedShared
    if a2 ≠ MAP_FAILED then
      (a2, [MmapStrategy.fixedNoReplace, MmapStrategy.fixedShared])
    else
      (res MmapStrategy.nullHint,
        [MmapStrategy.fixedNoReplace, MmapStrategy.fixedShared,
          MmapStrategy.nullHint])

/-- The full process-constructor phase before `main`: priority 0
(`__decide_deferred_forkserver`), then priority 1 (`__afl_protect`, whose
first statement on line 251 is `setenv("__AFL_DEFER_FORKSRV", "1", 1)`).
`none` models the `abort()` in the priority-0 constructor. -/
def constructorPhase (unsetFails : Bool) (res : MmapStrategy → Int)
    (e : EnvMap) : Option (EnvMap × Int) :=
  match __decide_deferred_forkserver unsetFails e with
  | none => none
  | some e1 =>
      some (setenvF e1 "__AFL_DEFER_FORKSRV" "1", (__afl_protect res).1)

/-- The per-path contribution of one argument to the batch-mode trace, as the
spec describes it: an unreadable path contributes nothing; a readable path
whose read yields more than zero bytes contributes exactly one invocation
with the bytes read. -/
def batchFileTrace (maxFile : Int) (fs : List Char → Option Int)
    (p : List Char) : List Event :=
  match fs p with
  | none => []
  | some sz =>
      if 0 < readFileLen maxFile sz then
        [Event.invoke InvSrc.batch (readFileLen maxFile sz)]
      else []

/-- Recognizer for consultations of `__afl_persistent_loop`. -/
def isLoopQuery : Event → Bool
  | Event.loopQuery _ => true
  | _ => false

/-! ## Helper lemmas -/

/-- Every event emitted by the persistent loop is either a consultation of
`__afl_persistent_loop(N)` or a stream-fed target invocation with a positive
byte count. -/
theorem persistentLoopRun_events (N : Int) (dec : Nat → Bool) (rd : Nat → Int) :
    ∀ fuel i e, e ∈ persistentLoopRun N dec rd fuel i →
      e = Event.loopQuery N ∨ ∃ r, e = Event.invoke InvSrc.stream r ∧ 0 < r := by
  intro fuel
  induction fuel with
  | zero => intro i e h; simp [persistentLoopRun] at h
  | succ f ih =>
      intro i e h
      rw [persistentLoopRun] at h
      by_cases hd : dec i
      · rw [if_pos hd] at h
        rcases List.mem_cons.mp h with h1 | h2
        · exact Or.inl h1
        rcases List.mem_append.mp h2 with h3 | h4
        · by_cases hr : rd i > 0
          · rw [if_pos hr] at h3
            simp only [List.mem_singleton] at h3
            exact Or.inr ⟨rd i, h3, hr⟩
          · rw [if_neg hr] at h3
            simp at h3
        · exact ih (i + 1) e h4
      · rw [if_neg hd] at h
        simp only [List.mem_singleton] at h
        exact Or.inl h

/-- Every event emitted by `ExecuteFilesOnyByOne` is a batch-sourced target
invocation with a positive byte count, bounded by the read cap. -/
theorem ExecuteFilesOnyByOne_events (maxFile : Int) (fs : List Char → Option Int) :
    ∀ args e, e ∈ (ExecuteFilesOnyByOne maxFile fs args).1 →
      ∃ l, e = Event.invoke InvSrc.batch l ∧ 0 < l ∧ l ≤ maxFile := by
  intro args
  induction args with
  | nil => intro e h; simp [ExecuteFilesOnyByOne] at h
  | cons p rest ih =>
      intro e h
      rw [ExecuteFilesOnyByOne] at h
      split at h
      · exact ih e h
      · rename_i sz hfs
        split at h
        · rename_i hl
          rcases List.mem_cons.mp h with h1 | h2
          · exact ⟨readFileLen maxFile sz, h1, hl, min_le_right sz maxFile⟩
          · exact ih e h2
        · exact ih e h

/-- `ExecuteFilesOnyByOne` always returns 0. -/
theorem ExecuteFilesOnyByOne_ret (maxFile : Int) (fs : List Char → Option Int) :
    ∀ args, (ExecuteFilesOnyByOne maxFile fs args).2 = 0 := by
  intro args
  induction args with
  | nil => rfl
  | cons p rest ih =>
      rw [ExecuteFilesOnyByOne]
      split
      · exact ih
      · split
        · exact ih
        · exact ih

/-- The batch trace decomposes path by path. -/
theorem ExecuteFilesOnyByOne_bind (maxFile : Int) (fs : List Char → Option Int) :
    ∀ args, (ExecuteFilesOnyByOne maxFile fs args).1 =
      args.flatMap (batchFileTrace maxFile fs) := by
  intro args
  induction args with
  | nil => rfl
  | cons p rest ih =>
      rw [ExecuteFilesOnyByOne, List.flatMap_cons]
      split
      · rename_i hfs
        simp [batchFileTrace, hfs, ih]
      · rename_i sz hfs
        split
        · rename_i hl
          simp [batchFileTrace, hfs, hl, ih]
        · rename_i hl
          simp [batchFileTrace, hfs, hl, ih]

/-- As long as the loop primitive keeps answering true, the loop keeps being
consulted: the number of consultations is at least `k` whenever the first
`k` answers are true and the unrolling allows, irrespective of the read
results `rd`. -/
theorem persistentLoopRun_countP (N : Int) (dec : Nat → Bool) (rd : Nat → Int) :
    ∀ k fuel i, (∀ j, j < k → dec (i + j) = true) → k ≤ fuel →
      k ≤ (persistentLoopRun N dec rd fuel i).countP isLoopQuery := by
  intro k
  induction k with
  | zero => intro fuel i _ _; exact Nat.zero_le _
  | succ m ih =>
      intro fuel i hdec hf
      cases fuel with
      | zero => omega
      | succ f =>
          have hd : dec i = true := by
            have := hdec 0 (Nat.succ_pos m)
            simpa using this
          rw [persistentLoopRun, if_pos hd]
          rw [List.countP_cons_of_pos _ _ (by simp [isLoopQuery]),
            List.countP_append]
          have hrest : m ≤ (persistentLoopRun N dec rd f (i + 1)).countP isLoopQuery := by
            refine ih f (i + 1) ?_ (by omega)
            intro j hj
            have := hdec (j + 1) (by omega)
            simpa [Nat.add_assoc, Nat.add_comm 1 j] using this
          omega

/-! ## Claim theorems -/

/-- Claim C1, amended: in every startup path that calls `__afl_manual_init`
(batch mode, and persistent mode without `AFL_DISABLE_LLVM_INSTRUMENTATION`),
the placeholder map is unmapped exactly once, and the unmap happens strictly
BEFORE the deferred-init signal (immediately before it, with the area pointer
nulled in between) — not after it, as the claim states. -/
theorem c1_unmap_once_strictly_before_signal (disableLLVM : Bool)
    (maxFile : Int) (fs : List Char → Option Int) (dec : Nat → Bool)
    (rd : Nat → Int) (fuel : Nat) (argv : List (List Char))
    (h : Event.manualInit ∈ (aflMain disableLLVM maxFile fs dec rd fuel argv).1) :
    ∃ pre post,
      (aflMain disableLLVM maxFile fs dec rd fuel argv).1 =
        pre ++ Event.munmapArea :: Event.nullAreaPtr ::
          Event.manualInit :: post ∧
      Event.munmapArea ∉ pre ∧ Event.munmapArea ∉ post ∧
      Event.manualInit ∉ pre ∧ Event.manualInit ∉ post := by
  cases hm : decideMode argv with
  | batchMode =>
      refine ⟨[], (ExecuteFilesOnyByOne maxFile fs (argv.drop 1)).1,
        ?_, by simp, ?_, by simp, ?_⟩
      · simp [aflMain, hm]
      · intro hmem
        rcases ExecuteFilesOnyByOne_events maxFile fs _ _ hmem with ⟨l, hl, _, _⟩
        simp at hl
      · intro hmem
        rcases ExecuteFilesOnyByOne_events maxFile fs _ _ hmem with ⟨l, hl, _, _⟩
        simp at hl
  | persist w N =>
      by_cases hN : 0 < N
      · cases disableLLVM with
        | true =>
            exfalso
            simp only [aflMain, hm] at h
            rw [if_pos hN] at h
            simp only [if_true] at h
            rcases List.mem_append.mp h with h1 | h2
            · cases w <;> simp at h1
            · have h4 : Event.manualInit ∈ persistentLoopRun N dec rd fuel 0 := by
                simpa using h2
              rcases persistentLoopRun_events N dec rd fuel 0 _ h4 with
                h5 | ⟨r, h5, _⟩ <;> simp at h5
        | false =>
            refine ⟨(if w then [Event.warnDeprecated] else []),
              Event.invoke InvSrc.warmup 1 :: persistentLoopRun N dec rd fuel 0,
              ?_, ?_, ?_, ?_, ?_⟩
            · simp only [aflMain, hm]
              rw [if_pos hN]
              cases w <;> simp
            · cases w <;> simp
            · intro hmem
              rcases List.mem_cons.mp hmem with h3 | h4
              · simp at h3
              · rcases persistentLoopRun_events N dec rd fuel 0 _ h4 with
                  h5 | ⟨r, h5, _⟩ <;> simp at h5
            · cases w <;> simp
            · intro hmem
              rcases List.mem_cons.mp hmem with h3 | h4
              · simp at h3
              · rcases persistentLoopRun_events N dec rd fuel 0 _ h4 with
                  h5 | ⟨r, h5, _⟩ <;> simp at h5
      · exfalso
        simp only [aflMain, hm] at h
        rw [if_neg hN] at h
        cases w <;> simp at h

/-- Witness for C1's theorem: with no arguments and instrumentation enabled,
the trace is exactly `unmap, null, manual-init, warm-up`, decomposed as the
theorem states. -/
theorem c1_witness :
    ∃ pre post,
      (aflMain false 0 (fun _ => none) (fun _ => false) (fun _ => 0) 0
          [['p']]).1 =
        pre ++ Event.munmapArea :: Event.nullAreaPtr ::
          Event.manualInit :: post ∧
      Event.munmapArea ∉ pre ∧ Event.munmapArea ∉ post ∧
      Event.manualInit ∉ pre ∧ Event.manualInit ∉ post :=
  c1_unmap_once_strictly_before_signal false 0 (fun _ => none) (fun _ => false)
    (fun _ => 0) 0 [['p']] (by decide)

/-- Counterexample to C1 as stated: in the no-argument persistent startup
path, the unmap of the placeholder map (first trace position) happens BEFORE
the deferred-init signal `__afl_manual_init` (third trace position), so the
unmap is not "only after the deferred-init signal has been sent". -/
theorem c1_counterexample :
    Event.munmapArea ∈ (aflMain false 0 (fun _ => none) (fun _ => false)
        (fun _ => 0) 0 [['p']]).1 ∧
    Event.manualInit ∈ (aflMain false 0 (fun _ => none) (fun _ => false)
        (fun _ => 0) 0 [['p']]).1 ∧
    List.indexOf Event.munmapArea
        ((aflMain false 0 (fun _ => none) (fun _ => false)
          (fun _ => 0) 0 [['p']]).1) <
      List.indexOf Event.manualInit
        ((aflMain false 0 (fun _ => none) (fun _ => false)
          (fun _ => 0) 0 [['p']]).1) := by decide

/-- Claim C2, amended: `N` starts at `INT_MAX`; a single argument starting
with `-` resolves `N = atoi` of the remainder; otherwise a single argument
with `atoi(arg) > 0` (not necessarily a bare integer — trailing non-digits
are ignored by `atoi`) resolves `N` to that value with a deprecation
warning; any other non-empty argument list goes to batch mode and never
consults the persistent loop; a non-positive resolved `N` hits
`assert(N > 0)`. -/
theorem c2_budget_resolution (disableLLVM : Bool) (maxFile : Int)
    (fs : List Char → Option Int) (dec : Nat → Bool) (rd : Nat → Int)
    (fuel : Nat) (p a b c : List Char) (rest : List (List Char))
    (argv : List (List Char)) :
    (decideMode [p] = Mode.persist false INT_MAX) ∧
    (headChar a = '-' → decideMode [p, a] = Mode.persist false (atoi (a.drop 1))) ∧
    (headChar a ≠ '-' → 0 < atoi a →
       decideMode [p, a] = Mode.persist true (atoi a) ∧
       Event.warnDeprecated ∈
         (aflMain disableLLVM maxFile fs dec rd fuel [p, a]).1) ∧
    (headChar a ≠ '-' → atoi a ≤ 0 → decideMode [p, a] = Mode.batchMode) ∧
    (decideMode (p :: b :: c :: rest) = Mode.batchMode) ∧
    (∀ w N, decideMode argv = Mode.persist w N → N ≤ 0 →
       (aflMain disableLLVM maxFile fs dec rd fuel argv).2 =
         MainOutcome.assertFail) ∧
    (decideMode argv = Mode.batchMode →
       ∀ q, Event.loopQuery q ∉
         (aflMain disableLLVM maxFile fs dec rd fuel argv).1) := by
  refine ⟨rfl, ?_, ?_, ?_, rfl, ?_, ?_⟩
  · intro h1
    simp [decideMode, h1]
  · intro hne hpos
    have hmode : decideMode [p, a] = Mode.persist true (atoi a) := by
      simp [decideMode, hne, hpos]
    refine ⟨hmode, ?_⟩
    simp only [aflMain, hmode]
    rw [if_pos hpos]
    simp
  · intro hne hle
    have hnpos : ¬ 0 < atoi a := by omega
    simp [decideMode, hne, hnpos]
  · intro w N hm hle
    simp only [aflMain, hm]
    rw [if_neg (by omega)]
  · intro hm q hmem
    simp only [aflMain, hm] at hmem
    have h2 : Event.loopQuery q ∈ (ExecuteFilesOnyByOne maxFile fs argv.tail).1 := by
      simpa using hmem
    rcases ExecuteFilesOnyByOne_events maxFile fs _ _ h2 with ⟨l, hl, _, _⟩
    simp at hl

/-- Witness for C2's theorem: the deprecated single-argument form `7`
resolves to budget 7 in persistent mode with the warning emitted. -/
theorem c2_witness :
    decideMode [['p'], ['7']] = Mode.persist true (atoi ['7']) ∧
    Event.warnDeprecated ∈
      (aflMain false 0 (fun _ => none) (fun _ => false) (fun _ => 0) 0
        [['p'], ['7']]).1 :=
  (c2_budget_resolution false 0 (fun _ => none) (fun _ => false) (fun _ => 0) 0
    ['p'] ['7'] [] [] [] [['p']]).2.2.1 (by decide) (by decide)

/-- Counterexample to C2 as stated: the single argument `5x` is neither of
the form `-<integer>` nor a bare positive integer, so by the claim the
harness should run batch mode and never enter the persistent loop; the code
instead takes the deprecated branch (`atoi("5x") = 5 > 0`) and enters the
persistent loop with budget 5. -/
theorem c2_counterexample :
    decideMode [['p'], ['5', 'x']] ≠ Mode.batchMode ∧
    Event.loopQuery 5 ∈
      (aflMain false 0 (fun _ => none) (fun _ => true) (fun _ => 0) 1
        [['p'], ['5', 'x']]).1 := by decide

/-- Claim C3, amended: when the discard-stderr bit of
`AFL_DRIVER_CLOSE_FD_MASK` is set, the stderr-handling runs first and begins
by duplicating the current stderr descriptor; the original descriptor is
replaced with a null sink only when the sanitizer report-fd hook
(`__sanitizer_set_report_fd`) is linked — when the weak symbol is absent the
function returns right after the `dup`, leaving the original stderr open
(contrary to the claim's "in all configurations"). -/
theorem c3_discard_stderr (s : List Char) (sanLinked : Bool)
    (outputFileno : Nat) (h : bit1 (atoi s) = true) :
    (maybe_close_fd_mask (some s) sanLinked outputFileno =
        dup_and_close_stderr sanLinked outputFileno ++
          (if bit0 (atoi s) then close_stdout else [])) ∧
    (dup_and_close_stderr sanLinked outputFileno).head? =
      some IOEvent.dupStderr ∧
    (IOEvent.discardOutput outputFileno ∈
        dup_and_close_stderr sanLinked outputFileno ↔ sanLinked = true) ∧
    (sanLinked = true → dup_and_close_stderr sanLinked outputFileno =
      [IOEvent.dupStderr, IOEvent.setSanReportFd,
        IOEvent.discardOutput outputFileno]) := by
  refine ⟨?_, rfl, ?_, ?_⟩
  · simp [maybe_close_fd_mask, h]
  · cases sanLinked <;> simp [dup_and_close_stderr]
  · intro hs
    subst hs
    rfl

/-- Witness for C3's theorem: mask `3` with the sanitizer hook linked yields
duplicate-then-set-report-fd-then-discard on stderr (descriptor 2). -/
theorem c3_witness :
    maybe_close_fd_mask (some ['3']) true STDERR_FILENO =
      dup_and_close_stderr true STDERR_FILENO ++
        (if bit0 (atoi ['3']) then close_stdout else []) :=
  (c3_discard_stderr ['3'] true STDERR_FILENO (by decide)).1

/-- Counterexample to C3 as stated: with mask `2` and no sanitizer hook
linked, the duplicate happens but the original stderr descriptor is never
replaced with a null sink. -/
theorem c3_counterexample :
    bit1 (atoi ['2']) = true ∧
    IOEvent.dupStderr ∈ maybe_close_fd_mask (some ['2']) false STDERR_FILENO ∧
    IOEvent.discardOutput STDERR_FILENO ∉
      maybe_close_fd_mask (some ['2']) false STDERR_FILENO := by decide

/-- Claim C4: in persistent mode the warm-up invocation of
`LLVMFuzzerTestOneInput` happens exactly once (no warm-up-sourced invocation
anywhere else in the trace), with the constant one-byte payload
(`dummy_input`, length 1), and strictly before the first consultation of
`__afl_persistent_loop` (no `loopQuery` precedes it: the suffix after it is
exactly the loop trace). -/
theorem c4_warmup_once_before_loop (disableLLVM : Bool) (maxFile : Int)
    (fs : List Char → Option Int) (dec : Nat → Bool) (rd : Nat → Int)
    (fuel : Nat) (argv : List (List Char)) (w : Bool) (N : Int)
    (hm : decideMode argv = Mode.persist w N) (hN : 0 < N) :
    ∃ pre,
      (aflMain disableLLVM maxFile fs dec rd fuel argv).1 =
        pre ++ Event.invoke InvSrc.warmup 1 ::
          persistentLoopRun N dec rd fuel 0 ∧
      (∀ l, Event.invoke InvSrc.warmup l ∉ pre) ∧
      (∀ l, Event.invoke InvSrc.warmup l ∉ persistentLoopRun N dec rd fuel 0) ∧
      (∀ q, Event.loopQuery q ∉ pre) := by
  refine ⟨(if w then [Event.warnDeprecated] else []) ++
      (if disableLLVM then ([] : List Event)
        else [Event.munmapArea, Event.nullAreaPtr, Event.manualInit]),
    ?_, ?_, ?_, ?_⟩
  · simp only [aflMain, hm]
    rw [if_pos hN]
  · intro l hl
    rcases List.mem_append.mp hl with h1 | h2
    · cases w <;> simp at h1
    · cases disableLLVM <;> simp at h2
  · intro l hl
    rcases persistentLoopRun_events N dec rd fuel 0 _ hl with
      h5 | ⟨r, h5, _⟩ <;> simp at h5
  · intro q hq
    rcases List.mem_append.mp hq with h1 | h2
    · cases w <;> simp at h1
    · cases disableLLVM <;> simp at h2

/-- Witness for C4's theorem: with no arguments, the warm-up invocation with
length 1 sits between the handshake prefix and the loop trace. -/
theorem c4_witness :
    ∃ pre,
      (aflMain false 0 (fun _ => none) (fun _ => true) (fun _ => 7) 1
          [['p']]).1 =
        pre ++ Event.invoke InvSrc.warmup 1 ::
          persistentLoopRun INT_MAX (fun _ => true) (fun _ => 7) 1 0 ∧
      (∀ l, Event.invoke InvSrc.warmup l ∉ pre) ∧
      (∀ l, Event.invoke InvSrc.warmup l ∉
        persistentLoopRun INT_MAX (fun _ => true) (fun _ => 7) 1 0) ∧
      (∀ q, Event.loopQuery q ∉ pre) :=
  c4_warmup_once_before_loop false 0 (fun _ => none) (fun _ => true)
    (fun _ => 7) 1 [['p']] false INT_MAX (by decide) (by decide)

/-- Claim C5, amended: `__afl_protect` tries the three mapping strategies in
source order — fixed address with `MAP_FIXED_NOREPLACE`, then the same fixed
address without it, then a NULL hint — accepting the first whose result is
not `MAP_FAILED` and attempting no further ones; when all three fail, the
area pointer is left equal to `MAP_FAILED` (-1), NOT null as the claim
states. -/
theorem c5_reserve_cascade (res : MmapStrategy → Int) :
    (res MmapStrategy.fixedNoReplace ≠ MAP_FAILED →
       __afl_protect res =
         (res MmapStrategy.fixedNoReplace, [MmapStrategy.fixedNoReplace])) ∧
    (res MmapStrategy.fixedNoReplace = MAP_FAILED →
       res MmapStrategy.fixedShared ≠ MAP_FAILED →
       __afl_protect res =
         (res MmapStrategy.fixedShared,
           [MmapStrategy.fixedNoReplace, MmapStrategy.fixedShared])) ∧
    (res MmapStrategy.fixedNoReplace = MAP_FAILED →
       res MmapStrategy.fixedShared = MAP_FAILED →
       __afl_protect res =
         (res MmapStrategy.nullHint,
           [MmapStrategy.fixedNoReplace, MmapStrategy.fixedShared,
             MmapStrategy.nullHint])) ∧
    ((∀ st, res st = MAP_FAILED) → (__afl_protect res).1 = MAP_FAILED) := by
  refine ⟨?_, ?_, ?_, ?_⟩
  · intro h1
    simp [__afl_protect, h1]
  · intro h1 h2
    simp [__afl_protect, h1, h2]
  · intro h1 h2
    simp [__afl_protect, h1, h2]
  · intro hall
    simp [__afl_protect, hall]

/-- Witness for C5's theorem: first strategy fails, second succeeds at
address 99 — only the first two strategies are attempted and 99 is kept. -/
theorem c5_witness :
    __afl_protect
        (fun st => if st = MmapStrategy.fixedNoReplace then MAP_FAILED else 99) =
      ((fun st => if st = MmapStrategy.fixedNoReplace then MAP_FAILED else 99)
          MmapStrategy.fixedShared,
        [MmapStrategy.fixedNoReplace, MmapStrategy.fixedShared]) :=
  (c5_reserve_cascade
    (fun st => if st = MmapStrategy.fixedNoReplace then MAP_FAILED else 99)).2.1
    (by decide) (by decide)

/-- Counterexample to C5 as stated: when all three mmap attempts fail, the
region pointer is `MAP_FAILED` (-1), not null (0). -/
theorem c5_counterexample :
    (__afl_protect (fun _ => MAP_FAILED)).1 ≠ 0 ∧
    (__afl_protect (fun _ => MAP_FAILED)).1 = MAP_FAILED := by decide

/-- Claim C6: the batch trace decomposes path by path — a path failing to
open contributes zero invocations (silently: the function still returns),
a path opening onto a read of more than zero bytes contributes exactly one
invocation carrying the bytes read (capped at the maximum size); the
dispatcher returns 0 and `main`'s batch branch exits with status 0. -/
theorem c6_batch_dispatch (maxFile : Int) (fs : List Char → Option Int)
    (args : List (List Char)) :
    (ExecuteFilesOnyByOne maxFile fs args).2 = 0 ∧
    (ExecuteFilesOnyByOne maxFile fs args).1 =
      args.flatMap (batchFileTrace maxFile fs) ∧
    (∀ p, fs p = none → batchFileTrace maxFile fs p = []) ∧
    (∀ p sz, fs p = some sz → 0 < readFileLen maxFile sz →
       batchFileTrace maxFile fs p =
         [Event.invoke InvSrc.batch (readFileLen maxFile sz)]) ∧
    (∀ e ∈ (ExecuteFilesOnyByOne maxFile fs args).1,
       ∃ l, e = Event.invoke InvSrc.batch l ∧ 0 < l ∧ l ≤ maxFile) ∧
    (∀ disableLLVM dec rd fuel argv, decideMode argv = Mode.batchMode →
       (aflMain disableLLVM maxFile fs dec rd fuel argv).2 =
         MainOutcome.ret 0) := by
  refine ⟨ExecuteFilesOnyByOne_ret maxFile fs args,
    ExecuteFilesOnyByOne_bind maxFile fs args, ?_, ?_, ?_, ?_⟩
  · intro p hp
    simp [batchFileTrace, hp]
  · intro p sz hp hl
    simp [batchFileTrace, hp, hl]
  · intro e he
    exact ExecuteFilesOnyByOne_events maxFile fs args e he
  · intro disableLLVM dec rd fuel argv hm
    simp only [aflMain, hm]
    simp [ExecuteFilesOnyByOne_ret]

/-- Witness for C6's theorem: two paths where the first fails to open and
the second reads 3 bytes yield exactly one invocation of length 3 and exit
status 0. -/
theorem c6_witness :
    batchFileTrace 10 (fun p => if p = ['b'] then some 3 else none) ['b'] =
      [Event.invoke InvSrc.batch (readFileLen 10 3)] ∧
    (aflMain false 10 (fun p => if p = ['b'] then some 3 else none)
        (fun _ => false) (fun _ => 0) 0 [['p'], ['a'], ['b']]).2 =
      MainOutcome.ret 0 :=
  ⟨(c6_batch_dispatch 10 (fun p => if p = ['b'] then some 3 else none)
      [['a'], ['b']]).2.2.2.1 ['b'] 3 (by decide) (by decide),
    (c6_batch_dispatch 10 (fun p => if p = ['b'] then some 3 else none)
      [['a'], ['b']]).2.2.2.2.2 false (fun _ => false) (fun _ => 0) 0
      [['p'], ['a'], ['b']] (by decide)⟩

/-- Claim C7: in the persistent loop, a zero-or-negative read produces no
invocation in that iteration and the loop goes on to consult the primitive
again; every stream invocation in the trace carries a positive count; as
long as the primitive answers true the loop keeps being consulted regardless
of the read results (end-of-stream never terminates it), and a false answer
ends the trace at that consultation. -/
theorem c7_stream_reads (N : Int) (dec : Nat → Bool) (rd : Nat → Int) :
    (∀ fuel i r, Event.invoke InvSrc.stream r ∈ persistentLoopRun N dec rd fuel i →
       0 < r) ∧
    (∀ fuel i, dec i = true → rd i ≤ 0 →
       persistentLoopRun N dec rd (fuel + 1) i =
         Event.loopQuery N :: persistentLoopRun N dec rd fuel (i + 1)) ∧
    (∀ k fuel, (∀ j, j < k → dec j = true) → k ≤ fuel →
       k ≤ (persistentLoopRun N dec rd fuel 0).countP isLoopQuery) ∧
    (∀ fuel i, dec i = false →
       persistentLoopRun N dec rd (fuel + 1) i = [Event.loopQuery N]) := by
  refine ⟨?_, ?_, ?_, ?_⟩
  · intro fuel i r hmem
    rcases persistentLoopRun_events N dec rd fuel i _ hmem with h1 | ⟨s, hs, hspos⟩
    · simp at h1
    · simp only [Event.invoke.injEq] at hs
      rcases hs with ⟨_, rfl⟩
      exact hspos
  · intro fuel i hd hr
    rw [persistentLoopRun, if_pos hd, if_neg (by omega)]
    simp
  · intro k fuel hdec hk
    exact persistentLoopRun_countP N dec rd k fuel 0
      (fun j hj => by simpa using hdec j hj) hk
  · intro fuel i hd
    rw [persistentLoopRun, if_neg (by simp [hd])]

/-- Witness for C7's theorem: a true answer with a zero-byte read skips the
invocation and continues into the next iteration. -/
theorem c7_witness :
    persistentLoopRun 5 (fun i => i = 0) (fun _ => 0) 2 0 =
      Event.loopQuery 5 ::
        persistentLoopRun 5 (fun i => i = 0) (fun _ => 0) 1 1 :=
  (c7_stream_reads 5 (fun i => i = 0) (fun _ => 0)).2.1 1 0
    (by decide) (by decide)

/-- Claim C8, amended: if `AFL_DRIVER_DONT_DEFER` is set, the priority-0
constructor clears `__AFL_DEFER_FORKSRV` before anything else, aborting when
the unsetenv fails; but the priority-1 constructor `__afl_protect` then
unconditionally sets the variable back to `"1"`, so at the end of
process-constructor initialization the variable is SET, not unset — the
claimed opt-out is overridden. -/
theorem c8_dont_defer (unsetFails : Bool) (res : MmapStrategy → Int)
    (e : EnvMap) (v : String) (h : e "AFL_DRIVER_DONT_DEFER" = some v) :
    (unsetFails = true → constructorPhase unsetFails res e = none) ∧
    (unsetFails = false →
       __decide_deferred_forkserver unsetFails e =
         some (unsetenvF e "__AFL_DEFER_FORKSRV") ∧
       unsetenvF e "__AFL_DEFER_FORKSRV" "__AFL_DEFER_FORKSRV" = none ∧
       (constructorPhase unsetFails res e).map
         (fun out => out.1 "__AFL_DEFER_FORKSRV") = some (some "1")) := by
  constructor
  · intro hu
    subst hu
    simp [constructorPhase, __decide_deferred_forkserver, h]
  · intro hu
    subst hu
    refine ⟨by simp [__decide_deferred_forkserver, h], by simp [unsetenvF], ?_⟩
    simp [constructorPhase, __decide_deferred_forkserver, h, setenvF]

/-- Witness for C8's theorem: with `AFL_DRIVER_DONT_DEFER=1` in the
environment and a succeeding unsetenv, the priority-0 constructor clears the
variable, yet after the constructor phase it reads `"1"`. -/
theorem c8_witness :
    unsetenvF (fun k => if k = "AFL_DRIVER_DONT_DEFER" then some "1" else none)
        "__AFL_DEFER_FORKSRV" "__AFL_DEFER_FORKSRV" = none ∧
    (constructorPhase false (fun _ => MAP_FAILED)
        (fun k => if k = "AFL_DRIVER_DONT_DEFER" then some "1" else none)).map
      (fun out => out.1 "__AFL_DEFER_FORKSRV") = some (some "1") :=
  ⟨((c8_dont_defer false (fun _ => MAP_FAILED)
      (fun k => if k = "AFL_DRIVER_DONT_DEFER" then some "1" else none) "1"
      (by decide)).2 rfl).2.1,
    ((c8_dont_defer false (fun _ => MAP_FAILED)
      (fun k => if k = "AFL_DRIVER_DONT_DEFER" then some "1" else none) "1"
      (by decide)).2 rfl).2.2⟩

/-- Counterexample to C8 as stated: with `AFL_DRIVER_DONT_DEFER` set and the
unsetenv succeeding, `__AFL_DEFER_FORKSRV` is `"1"` — not unset — at the end
of process-constructor initialization. -/
theorem c8_counterexample :
    (constructorPhase false (fun _ => MAP_FAILED)
        (fun k => if k = "AFL_DRIVER_DONT_DEFER" then some "1" else none)).map
      (fun out => out.1 "__AFL_DEFER_FORKSRV") = some (some "1") ∧
    (some "1" : Option String) ≠ none := by
  constructor
  · simp [constructorPhase, __decide_deferred_forkserver, setenvF]
  · simp

/-- Claim C9: a single argument starting with `-` whose remainder atoi-reads
to a non-positive value (such as `-0` or `-x`) resolves a non-positive
budget; the harness then fails the `assert(N > 0)` with an empty event trace
— no batch dispatch, no deferred-init signal, no persistent-loop
consultation. -/
theorem c9_dash_nonpositive (disableLLVM : Bool) (maxFile : Int)
    (fs : List Char → Option Int) (dec : Nat → Bool) (rd : Nat → Int)
    (fuel : Nat) (p a : List Char) (h1 : headChar a = '-')
    (h2 : atoi (a.drop 1) ≤ 0) :
    decideMode [p, a] = Mode.persist false (atoi (a.drop 1)) ∧
    aflMain disableLLVM maxFile fs dec rd fuel [p, a] =
      ([], MainOutcome.assertFail) := by
  have hmode : decideMode [p, a] = Mode.persist false (atoi (a.drop 1)) := by
    simp [decideMode, h1]
  refine ⟨hmode, ?_⟩
  simp only [aflMain, hmode]
  rw [if_neg (by omega)]
  simp

/-- Witness for C9's theorem: the argument `-0` aborts via the assertion
with an empty trace. -/
theorem c9_witness :
    decideMode [['p'], ['-', '0']] =
      Mode.persist false (atoi (['-', '0'].drop 1)) ∧
    aflMain false 0 (fun _ => none) (fun _ => true) (fun _ => 0) 3
        [['p'], ['-', '0']] = ([], MainOutcome.assertFail) :=
  c9_dash_nonpositive false 0 (fun _ => none) (fun _ => true) (fun _ => 0) 3
    ['p'] ['-', '0'] (by decide) (by decide)

/-- Claim C10: with `AFL_DISABLE_LLVM_INSTRUMENTATION` set and persistent
mode selected, the trace never unmaps the placeholder map, never nulls the
area pointer and never calls `__afl_manual_init`; the warm-up and the
persistent loop still run. -/
theorem c10_disable_instrumentation (maxFile : Int)
    (fs : List Char → Option Int) (dec : Nat → Bool) (rd : Nat → Int)
    (fuel : Nat) (argv : List (List Char)) (w : Bool) (N : Int)
    (hm : decideMode argv = Mode.persist w N) (hN : 0 < N) :
    (aflMain true maxFile fs dec rd fuel argv).1 =
      (if w then [Event.warnDeprecated] else []) ++
        Event.invoke InvSrc.warmup 1 :: persistentLoopRun N dec rd fuel 0 ∧
    Event.munmapArea ∉ (aflMain true maxFile fs dec rd fuel argv).1 ∧
    Event.nullAreaPtr ∉ (aflMain true maxFile fs dec rd fuel argv).1 ∧
    Event.manualInit ∉ (aflMain true maxFile fs dec rd fuel argv).1 := by
  have htr : (aflMain true maxFile fs dec rd fuel argv).1 =
      (if w then [Event.warnDeprecated] else []) ++
        Event.invoke InvSrc.warmup 1 :: persistentLoopRun N dec rd fuel 0 := by
    simp only [aflMain, hm]
    rw [if_pos hN]
    cases w <;> simp
  refine ⟨htr, ?_, ?_, ?_⟩
  all_goals
    rw [htr]
    intro hmem
    rcases List.mem_append.mp hmem with hp1 | hp2
    · cases w <;> simp at hp1
    · rcases List.mem_cons.mp hp2 with hp3 | hp4
      · simp at hp3
      · rcases persistentLoopRun_events N dec rd fuel 0 _ hp4 with
          hp5 | ⟨r, hp5, _⟩ <;> simp at hp5

/-- Witness for C10's theorem: with no arguments and the disable variable
set, the trace is warm-up followed by the loop, containing none of the
unmap/null/init events. -/
theorem c10_witness :
    (aflMain true 0 (fun _ => none) (fun _ => true) (fun _ => 4) 1
        [['p']]).1 =
      (if false then [Event.warnDeprecated] else []) ++
        Event.invoke InvSrc.warmup 1 ::
          persistentLoopRun INT_MAX (fun _ => true) (fun _ => 4) 1 0 ∧
    Event.munmapArea ∉ (aflMain true 0 (fun _ => none) (fun _ => true)
      (fun _ => 4) 1 [['p']]).1 ∧
    Event.nullAreaPtr ∉ (aflMain true 0 (fun _ => none) (fun _ => true)
      (fun _ => 4) 1 [['p']]).1 ∧
    Event.manualInit ∉ (aflMain true 0 (fun _ => none) (fun _ => true)
      (fun _ => 4) 1 [['p']]).1 :=
  c10_disable_instrumentation 0 (fun _ => none) (fun _ => true) (fun _ => 4) 1
    [['p']] false INT_MAX (by decide) (by decide)

end AflppDriver
